import Mathlib

/-!
Shallow embedding of the contact-book program in `src/main.py`.

Modelling conventions:
* Strings are Lean `String`s (lists of characters).  The program only ever
  validates characters through Python's `\d` regex class and `str.isdigit`;
  on ASCII text both coincide with `Char.isDigit`, which is what we use.
* Python's `re.match(r'^...$', s)` succeeds when the pattern consumes the
  whole string, or everything up to one final newline (`$` also matches just
  before a trailing `'\n'`).  Both regexes of the program (`^\d{10}$` and
  `^\d{2}\.\d{2}\.\d{4}$`) are embedded with that `$` semantics.
* `datetime` values are modelled by a calendar day converted to a day
  ordinal (proleptic Gregorian day count, the standard civil-days
  algorithm) plus the time of day in microseconds.  Comparison and
  subtraction of `datetime`s is comparison and subtraction of the absolute
  microsecond values; `timedelta.days` is floor division by the number of
  microseconds in a day, exactly as in Python.
* Exceptions that the code catches are modelled with `Option`: a helper
  returns `none` where the Python callee would raise `ValueError`.
* `print` output is modelled by returning a list of `Msg` values; the exact
  f-string texts are abstracted into `Msg` constructors carrying the
  interpolated data.
* The `input_error` decorator on `Name.__init__` / `Phone.__init__` catches
  the `ValueError` raised inside `__init__`, prints the message and returns
  `None`; object construction still completes, but `super().__init__` never
  ran, so the object's `value` attribute is left unset.  We model a `Field`
  value therefore as an `Option String` (`none` = attribute never set).
-/

/-- Messages printed by the program; each constructor stands for one
`print` call site, carrying the data interpolated into the f-string. -/
inductive Msg where
  | nameEmpty
  | phoneInvalid
  | birthdayFormatInvalid
  | birthdayInvalid
  | birthdayAdded (name : String)
  | contactNotFound
  | contactDeleted (name : String)
  | phoneUpdated (name : String)
  | birthdayIs (name : String) (text : String)
  | birthdayNotFound
  deriving DecidableEq

/-- Python `str.isdigit()`: true iff the string is non-empty and every
character is a digit (on ASCII text; Unicode digit variants out of scope). -/
def pyIsdigit (s : String) : Bool :=
  !s.data.isEmpty && s.data.all Char.isDigit

/-- Regex-engine step for `\d{n}`: consume exactly `n` digit characters,
returning the unconsumed remainder of the input. -/
def matchNDigits : Nat → List Char → Option (List Char)
  | 0, cs => some cs
  | _ + 1, [] => none
  | n + 1, c :: cs => if c.isDigit then matchNDigits n cs else none

/-- Python regex `$` (without `re.MULTILINE`): matches at the end of the
input or just before a newline that is the last character. -/
def dollarAccepts (cs : List Char) : Bool :=
  cs = [] || cs = ['\n']

/-- `Phone.__init__`s validation, `bool(re.match(r'^\d{10}$', value))`
(src/main.py line 44), embedded as the regex engine run for that pattern. -/
def validate_phone (s : String) : Bool :=
  match matchNDigits 10 s.data with
  | some rest => dollarAccepts rest
  | none => false

/-- Shape test for ten characters `DD.MM.YYYY` (all groups decimal digits). -/
def formatShape : List Char → Bool
  | [a, b, c, d, e, f, g, h, i, j] =>
    a.isDigit && b.isDigit && c = '.' && d.isDigit && e.isDigit && f = '.' &&
      g.isDigit && h.isDigit && i.isDigit && j.isDigit
  | _ => false

/-- `Birthday.is_valid_format`: `bool(re.match(r'^\d{2}\.\d{2}\.\d{4}$', value))`
(src/main.py line 52).  As with the phone regex, `$` also accepts one
trailing newline. -/
def Birthday.is_valid_format (s : String) : Bool :=
  formatShape s.data ||
    (s.data.getLast? = some '\n' && formatShape s.data.dropLast)

/-- Numeric value of a decimal digit character. -/
def digitVal (c : Char) : Nat := c.toNat - 48

/-- `strptime` `%d` directive: CPython compiles it to the regex alternation
`3[01]|[12]\d|0[1-9]|[1-9]`, tried in this order. -/
def matchDay : List Char → Option (Nat × List Char)
  | c1 :: c2 :: rest =>
    if c1 = '3' && (c2 = '0' || c2 = '1') then some (30 + digitVal c2, rest)
    else if (c1 = '1' || c1 = '2') && c2.isDigit then
      some (digitVal c1 * 10 + digitVal c2, rest)
    else if c1 = '0' && ('1' ≤ c2 && c2 ≤ '9') then some (digitVal c2, rest)
    else if '1' ≤ c1 && c1 ≤ '9' then some (digitVal c1, c2 :: rest)
    else none
  | [c1] => if '1' ≤ c1 && c1 ≤ '9' then some (digitVal c1, []) else none
  | [] => none

/-- `strptime` `%m` directive: regex `1[0-2]|0[1-9]|[1-9]`. -/
def matchMonth : List Char → Option (Nat × List Char)
  | c1 :: c2 :: rest =>
    if c1 = '1' && ('0' ≤ c2 && c2 ≤ '2') then some (10 + digitVal c2, rest)
    else if c1 = '0' && ('1' ≤ c2 && c2 ≤ '9') then some (digitVal c2, rest)
    else if '1' ≤ c1 && c1 ≤ '9' then some (digitVal c1, c2 :: rest)
    else none
  | [c1] => if '1' ≤ c1 && c1 ≤ '9' then some (digitVal c1, []) else none
  | [] => none

/-- `strptime` `%Y` directive: exactly four decimal digits. -/
def matchYear : List Char → Option (Nat × List Char)
  | a :: b :: c :: d :: rest =>
    if a.isDigit && b.isDigit && c.isDigit && d.isDigit then
      some (((digitVal a * 10 + digitVal b) * 10 + digitVal c) * 10 + digitVal d, rest)
    else none
  | _ => none

/-- Literal `.` in the strptime format string. -/
def expectDot : List Char → Option (List Char)
  | '.' :: rest => some rest
  | _ => none

/-- Gregorian leap-year rule, as used by Python `datetime`. -/
def isLeap (y : Int) : Bool :=
  y % 4 = 0 && (y % 100 ≠ 0 || y % 400 = 0)

/-- Number of days in a month of a given year (Python `calendar` rule). -/
def daysInMonth (y : Int) (m : Nat) : Nat :=
  if m = 2 then (if isLeap y then 29 else 28)
  else if m = 4 ∨ m = 6 ∨ m = 9 ∨ m = 11 then 30
  else 31

/-- Day ordinal of a calendar date (proleptic Gregorian, standard
civil-days algorithm).  Only differences and comparisons of ordinals are
used, so the epoch constant is irrelevant. -/
def toOrdinal (y m d : Int) : Int :=
  let y2 : Int := if m ≤ 2 then y - 1 else y
  let era : Int := Int.fdiv y2 400
  let yoe : Int := y2 - era * 400
  let mp : Int := (m + 9) % 12
  let doy : Int := Int.fdiv (153 * mp + 2) 5 + d - 1
  let doe : Int := yoe * 365 + Int.fdiv yoe 4 - Int.fdiv yoe 100 + doy
  era * 146097 + doe

/-- `datetime.strptime(s, "%d.%m.%Y")` (src/main.py lines 57 and 141):
match day, literal dot, month, literal dot, four-digit year; fail if input
remains unconsumed (`ValueError: unconverted data remains`) or the
resulting calendar date is invalid (`day is out of range for month`,
`year 0 is out of range`).  Returns `(day, month, year)`. -/
def strptimeDMY (s : String) : Option (Nat × Nat × Nat) := do
  let (d, r1) ← matchDay s.data
  let r2 ← expectDot r1
  let (m, r3) ← matchMonth r2
  let r4 ← expectDot r3
  let (y, r5) ← matchYear r4
  if r5 = [] && 1 ≤ y && 1 ≤ d && d ≤ daysInMonth (y : Int) m then
    some (d, m, y)
  else
    none

/-- Microseconds in a day. -/
def usPerDay : Int := 86400000000

/-- The value of `datetime.now()`: the current calendar date plus the time
of day collapsed into microseconds since midnight (Python stores
hour/minute/second/microsecond separately; only their combined value enters
comparisons and subtraction). -/
structure PyNow where
  year : Int
  month : Nat
  day : Nat
  us : Nat
  deriving DecidableEq

/-- Day ordinal of the current date. -/
def nowOrd (t : PyNow) : Int := toOrdinal t.year t.month t.day

/-- Absolute timeline value (microseconds) of `datetime.now()`. -/
def nowAbs (t : PyNow) : Int := nowOrd t * usPerDay + t.us

/-- `Birthday.is_valid_date` (src/main.py lines 55-61): parse with
`strptime`; on `ValueError` return `False`; otherwise compare the parsed
midnight datetime with `datetime.now()`. -/
def Birthday.is_valid_date (s : String) (t : PyNow) : Bool :=
  match strptimeDMY s with
  | some (d, m, y) => decide (toOrdinal y m d * usPerDay ≤ nowAbs t)
  | none => false

/-- `datetime.replace(year=y)` applied to a midnight datetime with month
`m` and day `d`: raises `ValueError` (here `none`) when the day does not
exist in that month of the new year (Feb 29 in a non-leap year). -/
def replaceYear (y : Int) (m d : Nat) : Option Int :=
  if d ≤ daysInMonth y m then some (toOrdinal y m d) else none

/-- `(birthday_date - current_date).days` for a midnight datetime with day
ordinal `o`: Python `timedelta` normalises with floor division. -/
def daysUntil (o : Int) (t : PyNow) : Int :=
  Int.fdiv (o * usPerDay - nowAbs t) usPerDay

/-- A `Phone` object.  `value = none` models a Phone whose decorated
`__init__` swallowed the `ValueError`, so the `value` attribute was never
assigned (src/main.py lines 41-47 with the `input_error` wrapper). -/
structure Phone where
  value : Option String
  deriving DecidableEq

/-- `Phone(value)` under the `input_error("Phone number must be 10
digits.")` decorator: on invalid input the message is printed and the
object is left without a `value` attribute; no exception escapes. -/
def mkPhone (s : String) : Phone × List Msg :=
  if validate_phone s then (⟨some s⟩, []) else (⟨none⟩, [Msg.phoneInvalid])

/-- `Name(value)` under `input_error("Name cannot be empty.")`: an empty
string raises inside `__init__`, the wrapper prints and swallows, and the
`value` attribute stays unset. -/
def mkName (s : String) : Option String × List Msg :=
  if s = "" then (none, [Msg.nameEmpty]) else (some s, [])

/-- The result of `Record.__init__` (src/main.py lines 64-67): a freshly
constructed record whose `name` may lack its value when `Name` validation
failed. -/
structure RawRecord where
  name : Option String
  phones : List Phone
  birthday : Option String
  deriving DecidableEq

/-- `Record(name)`: build the `Name` field (possibly swallowing the empty
name error), start with no phones and no birthday. -/
def mkRecord (s : String) : RawRecord × List Msg :=
  let nm := mkName s
  ({ name := nm.1, phones := [], birthday := none }, nm.2)

/-- A record as stored inside the `AddressBook`.  Every record enters the
book through `add_record`, which dereferences `record.name.value`, so a
store-resident record always carries an initialised name; we therefore
inline the name as a plain `String` here.  The `birthday` field holds the
validated `Birthday` text (the `Birthday` object stores the raw string). -/
structure Record where
  name : String
  phones : List Phone
  birthday : Option String
  deriving DecidableEq

/-- `Record.add_phone` (src/main.py lines 69-72): construct the `Phone`
(whose own decorated `__init__` swallows validation failure) and append it
unconditionally; the outer `input_error` wrapper never fires because no
exception escapes `Phone(...)`. -/
def Record.add_phone (r : Record) (s : String) : Record × List Msg :=
  let p := mkPhone s
  ({ r with phones := r.phones ++ [p.1] }, p.2)

/-- The `AddressBook.data` dict: an insertion-ordered association list with
unique keys, mapping a name to its record. -/
abbrev Book := List (String × Record)

/-- `name in self.data` for a dict. -/
def containsKey (data : Book) (n : String) : Bool :=
  data.any (fun e => e.1 = n)

/-- `self.data.get(name)` / `self.data[name]` on a present key. -/
def lookupKey : Book → String → Option Record
  | [], _ => none
  | e :: rest, n => if e.1 = n then some e.2 else lookupKey rest n

/-- In-place mutation of the record object stored under key `n` (Python
records are mutated through the dict's reference). -/
def updateRecord (data : Book) (n : String) (r : Record) : Book :=
  data.map (fun e => if e.1 = n then (e.1, r) else e)

/-- `del self.data[name]` for a dict with unique keys. -/
def eraseKey (data : Book) (n : String) : Book :=
  data.filter (fun e => e.1 ≠ n)

/-- `AddressBook.delete_record` (src/main.py lines 104-109). -/
def AddressBook.delete_record (data : Book) (n : String) : Book × List Msg :=
  if containsKey data n then (eraseKey data n, [Msg.contactDeleted n])
  else (data, [Msg.contactNotFound])

/-- `AddressBook.del_contact` (src/main.py lines 166-171); the source body
is line-for-line the same as `delete_record`. -/
def AddressBook.del_contact (data : Book) (n : String) : Book × List Msg :=
  if containsKey data n then (eraseKey data n, [Msg.contactDeleted n])
  else (data, [Msg.contactNotFound])

/-- `AddressBook.add_birthday` (src/main.py lines 114-127): format check,
then range check, then membership check, then store `Birthday(birthday)`
(which keeps the raw text) on the record. -/
def AddressBook.add_birthday (data : Book) (n btext : String) (t : PyNow) :
    Book × List Msg :=
  if Birthday.is_valid_format btext = false then
    (data, [Msg.birthdayFormatInvalid])
  else if Birthday.is_valid_date btext t = false then
    (data, [Msg.birthdayInvalid])
  else
    match lookupKey data n with
    | some r => (updateRecord data n { r with birthday := some btext },
        [Msg.birthdayAdded n])
    | none => (data, [Msg.contactNotFound])

/-- `AddressBook.show_birthday` (src/main.py lines 129-133): report the
stored birthday text when the contact exists and its `birthday` attribute
is truthy (any `Birthday` object is truthy; only `None` is not). -/
def AddressBook.show_birthday (data : Book) (n : String) : List Msg :=
  match lookupKey data n with
  | some r =>
    match r.birthday with
    | some b => [Msg.birthdayIs n b]
    | none => [Msg.birthdayNotFound]
  | none => [Msg.birthdayNotFound]

/-- `AddressBook.change` (src/main.py lines 153-164): reject unless the new
number is 10 characters and all digits; otherwise, when the contact exists,
clear its phone list and run `add_phone` on the cleared record. -/
def AddressBook.change (data : Book) (n p : String) : Book × List Msg :=
  if p.length ≠ 10 ∨ pyIsdigit p = false then (data, [Msg.phoneInvalid])
  else
    match lookupKey data n with
    | some r =>
      let res := Record.add_phone { r with phones := [] } p
      (updateRecord data n res.1, res.2 ++ [Msg.phoneUpdated n])
    | none => (data, [Msg.contactNotFound])

/-- The occurrence date computed by `AddressBook.birthdays` for one stored
birthday text (src/main.py lines 141-143): `strptime` the text, move it to
the current year, and when that datetime is strictly before
`datetime.now()` move it to the next year instead; `none` models the caught
`ValueError` (unparsable text, or Feb 29 moved into a non-leap year). -/
def birthdayOcc (t : PyNow) (btext : String) : Option Int :=
  match strptimeDMY btext with
  | none => none
  | some (d, m, _) =>
    match replaceYear t.year m d with
    | none => none
    | some o1 =>
      if o1 * usPerDay < nowAbs t then replaceYear (t.year + 1) m d
      else some o1

/-- One iteration of the `birthdays` loop (src/main.py lines 138-148):
skip records without a birthday, skip `ValueError`s, and keep
`(record.name.value, birthday_date)` when `0 <= days_until <= days`. -/
def procRecord (t : PyNow) (days : Int) (e : String × Record) :
    Option (String × Int) :=
  match e.2.birthday with
  | none => none
  | some btext =>
    match birthdayOcc t btext with
    | none => none
    | some o =>
      if 0 ≤ daysUntil o t ∧ daysUntil o t ≤ days then some (e.2.name, o)
      else none

/-- Sort key order of `upcoming_birthdays.sort(key=lambda x: x[1])`. -/
def occLe (a b : String × Int) : Prop := a.2 ≤ b.2

instance : DecidableRel occLe := fun a b => inferInstanceAs (Decidable (a.2 ≤ b.2))

/-- `AddressBook.birthdays` (src/main.py lines 135-151): collect the
qualifying `(name, occurrence)` pairs in iteration order, then stable-sort
by occurrence date; the sorted list is what the final loop prints. -/
def pyBirthdays (data : Book) (t : PyNow) (days : Int) : List (String × Int) :=
  List.insertionSort occLe (data.filterMap (procRecord t days))

/-- The `birthdays` loop with the store threaded through explicitly: each
visited entry is passed back out unchanged (the loop body only reads
`record.birthday` and `record.name`), while the qualifying pairs are
collected. -/
def birthdaysLoopSt (t : PyNow) (days : Int) :
    List (String × Record) → List (String × Record) × List (String × Int)
  | [] => ([], [])
  | e :: rest =>
    let acc := birthdaysLoopSt t days rest
    match procRecord t days e with
    | some pair => (e :: acc.1, pair :: acc.2)
    | none => (e :: acc.1, acc.2)

/-- State-passing version of `AddressBook.birthdays`: returns the store as
left behind by the loop together with the sorted report. -/
def pyBirthdaysSt (data : Book) (t : PyNow) (days : Int) :
    Book × List (String × Int) :=
  let acc := birthdaysLoopSt t days data
  (acc.1, List.insertionSort occLe acc.2)

/-! Concrete fixtures used by counterexamples and witnesses. -/

/-- A current instant of 2026-06-15, 12:00 noon. -/
def exNow : PyNow := ⟨2026, 6, 15, 43200000000⟩

/-- A current instant of 2026-10-12, exactly midnight. -/
def t0 : PyNow := ⟨2026, 10, 12, 0⟩

/-- Contact whose birthday falls on the `exNow` date (June 15). -/
def annRec : Record := ⟨"Ann", [], some "15.06.2000"⟩

/-- Contact whose birthday falls one day after the `exNow` date (June 16). -/
def bobRec : Record := ⟨"Bob", [], some "16.06.1990"⟩

/-- Book holding only Ann. -/
def cexBook : Book := [("Ann", annRec)]

/-- Book holding Ann and Bob. -/
def cexBook2 : Book := [("Ann", annRec), ("Bob", bobRec)]

/-- Book holding only Bob. -/
def wBook : Book := [("Bob", bobRec)]

/-- Book for the phone-replacement witness: Ann with two phones. -/
def chBook : Book :=
  [("Ann", ⟨"Ann", [⟨some "1111111111"⟩, ⟨some "2222222222"⟩], none⟩)]

/-- Book for the birthday round-trip witness. -/
def rtBook : Book := [("Bob", ⟨"Bob", [], none⟩)]

/-! Helper lemmas. -/

/-- Characterisation of the `\d{n}` consumer: it succeeds with remainder
`rest` exactly when the input splits as `n` digits followed by `rest`. -/
theorem matchNDigits_some_iff (n : Nat) (cs rest : List Char) :
    matchNDigits n cs = some rest ↔
      ∃ ds, cs = ds ++ rest ∧ ds.length = n ∧ ds.all Char.isDigit = true := by
  induction n generalizing cs with
  | zero =>
    simp only [matchNDigits, Option.some.injEq]
    constructor
    · rintro rfl; exact ⟨[], rfl, rfl, rfl⟩
    · rintro ⟨ds, h1, h2, _⟩
      rw [List.length_eq_zero] at h2
      subst h2
      simpa using h1
  | succ k ih =>
    cases cs with
    | nil =>
      simp only [matchNDigits]
      constructor
      · intro h; exact absurd h (by simp)
      · rintro ⟨ds, h1, h2, _⟩
        cases ds with
        | nil => simp at h2
        | cons d ds2 => simp at h1
    | cons c cs2 =>
      by_cases hc : c.isDigit
      · simp only [matchNDigits, hc, if_true, ih]
        constructor
        · rintro ⟨ds, h1, h2, h3⟩
          exact ⟨c :: ds, by simp [h1], by simp [h2], by simp [h3, hc]⟩
        · rintro ⟨ds, h1, h2, h3⟩
          cases ds with
          | nil => simp at h2
          | cons d ds2 =>
            simp only [List.cons_append, List.cons.injEq] at h1
            simp only [List.all_cons, Bool.and_eq_true] at h3
            exact ⟨ds2, h1.2, by simpa using h2, h3.2⟩
      · simp only [matchNDigits, hc, if_false]
        constructor
        · intro h; exact absurd h (by simp)
        · rintro ⟨ds, h1, h2, h3⟩
          cases ds with
          | nil => simp at h2
          | cons d ds2 =>
            simp only [List.cons_append, List.cons.injEq] at h1
            simp only [List.all_cons, Bool.and_eq_true] at h3
            exact absurd (h1.1 ▸ h3.1) hc

/-- A 10-character all-digit string passes the phone regex. -/
theorem validate_phone_of_digits (p : String) (h1 : p.length = 10)
    (h2 : pyIsdigit p = true) : validate_phone p = true := by
  have hall : p.data.all Char.isDigit = true := by
    unfold pyIsdigit at h2
    exact (Bool.and_eq_true_iff.mp h2).2
  have hlen : p.data.length = 10 := h1
  have hm : matchNDigits 10 p.data = some [] :=
    (matchNDigits_some_iff 10 p.data []).mpr ⟨p.data, by simp, hlen, hall⟩
  unfold validate_phone
  rw [hm]
  rfl

/-- `(birthday_date - current_date).days` computed at the calendar level:
it is the day difference when `now` is exactly midnight, and one less
otherwise (Python's `timedelta` floors). -/
theorem daysUntil_eq (o : Int) (t : PyNow) (h : (t.us : Int) < usPerDay) :
    daysUntil o t = o - nowOrd t - (if t.us = 0 then 0 else 1) := by
  unfold daysUntil nowAbs usPerDay at *
  rw [Int.fdiv_eq_ediv _ (by norm_num)]
  by_cases h0 : t.us = 0 <;> simp only [h0, if_true, if_false] <;> omega

/-- Membership in the report is membership in the collected pairs. -/
theorem mem_pyBirthdays_iff (data : Book) (t : PyNow) (days : Int)
    (x : String × Int) :
    x ∈ pyBirthdays data t days ↔ ∃ e ∈ data, procRecord t days e = some x := by
  unfold pyBirthdays
  rw [List.mem_insertionSort, List.mem_filterMap]

/-- What one loop iteration contributes. -/
theorem procRecord_eq_some_iff (t : PyNow) (days : Int) (e : String × Record)
    (n : String) (o : Int) :
    procRecord t days e = some (n, o) ↔
      e.2.name = n ∧ ∃ b, e.2.birthday = some b ∧ birthdayOcc t b = some o ∧
        0 ≤ daysUntil o t ∧ daysUntil o t ≤ days := by
  cases hb : e.2.birthday with
  | none => simp [procRecord, hb]
  | some btext =>
    cases ho : birthdayOcc t btext with
    | none => simp [procRecord, hb, ho]
    | some o1 =>
      have hL : procRecord t days e =
          if 0 ≤ daysUntil o1 t ∧ daysUntil o1 t ≤ days then
            some (e.2.name, o1)
          else none := by
        simp [procRecord, hb, ho]
      by_cases hc : 0 ≤ daysUntil o1 t ∧ daysUntil o1 t ≤ days
      · rw [hL, if_pos hc]
        constructor
        · intro h
          have hno : e.2.name = n ∧ o1 = o := by
            simpa [Prod.ext_iff] using h
          refine ⟨hno.1, btext, rfl, ?_, ?_, ?_⟩
          · rw [← hno.2]; exact ho
          · rw [← hno.2]; exact hc.1
          · rw [← hno.2]; exact hc.2
        · rintro ⟨hn, b, hb2, ho2, _, _⟩
          have hbb : b = btext := by simpa using hb2.symm
          subst hbb
          rw [ho] at ho2
          have : o1 = o := by simpa using ho2
          simp [hn, this]
      · rw [hL, if_neg hc]
        constructor
        · intro h; exact absurd h (by simp)
        · rintro ⟨hn, b, hb2, ho2, hd1, hd2⟩
          have hbb : b = btext := by simpa using hb2.symm
          subst hbb
          rw [ho] at ho2
          have : o1 = o := by simpa using ho2
          subst this
          exact absurd ⟨hd1, hd2⟩ hc

/-- Looking a key up after updating it in place yields the new record. -/
theorem lookupKey_updateRecord (data : Book) (n : String) (r0 r1 : Record)
    (h : lookupKey data n = some r0) :
    lookupKey (updateRecord data n r1) n = some r1 := by
  induction data with
  | nil => simp [lookupKey] at h
  | cons e rest ih =>
    by_cases he : e.1 = n
    · simp [lookupKey, updateRecord, he]
    · have h2 : lookupKey rest n = some r0 := by
        simpa [lookupKey, he] using h
      simpa [lookupKey, updateRecord, he] using ih h2

/-- The state-threaded loop returns the store unchanged and collects what
`filterMap` collects. -/
theorem birthdaysLoopSt_eq (t : PyNow) (days : Int) (l : List (String × Record)) :
    birthdaysLoopSt t days l = (l, l.filterMap (procRecord t days)) := by
  induction l with
  | nil => rfl
  | cons e rest ih =>
    unfold birthdaysLoopSt
    rw [ih]
    cases h : procRecord t days e <;> simp [List.filterMap_cons, h]

/-! Calendar sanity checks for the day-ordinal function. -/

/-- Consecutive dates across a month, year and leap-February boundary have
consecutive ordinals. -/
theorem toOrdinal_sanity :
    toOrdinal 2026 6 16 = toOrdinal 2026 6 15 + 1 ∧
    toOrdinal 2027 1 1 = toOrdinal 2026 12 31 + 1 ∧
    toOrdinal 2024 2 29 = toOrdinal 2024 2 28 + 1 ∧
    toOrdinal 2024 3 1 = toOrdinal 2024 2 29 + 1 ∧
    toOrdinal 2023 3 1 = toOrdinal 2023 2 28 + 1 := by decide

/-! Claim theorems. -/

/-- Claim C1, counterexample: the phone validator also accepts a 10-digit
string followed by one newline (Python `$` matches before a trailing
newline), so it does not accept only the 10-character all-digit strings. -/
theorem validate_phone_cex :
    validate_phone "1234567890\n" = true ∧
      ¬ ("1234567890\n".length = 10 ∧ pyIsdigit "1234567890\n" = true) := by
  decide

/-- Claim C1, amended: for every string `s`, the phone validator returns
true iff `s` is 10 characters, all decimal digits, or `s` is such a
10-digit string followed by exactly one newline character. -/
theorem validate_phone_char (s : String) :
    validate_phone s = true ↔
      (s.length = 10 ∧ pyIsdigit s = true) ∨
      (∃ ds, s.data = ds ++ ['\n'] ∧ ds.length = 10 ∧
        ds.all Char.isDigit = true) := by
  unfold validate_phone
  cases h : matchNDigits 10 s.data with
  | none =>
    constructor
    · intro hf; exact absurd hf (by simp)
    · rintro (⟨h1, h2⟩ | ⟨ds, h1, h2, h3⟩)
      · have hall : s.data.all Char.isDigit = true := by
          unfold pyIsdigit at h2
          exact (Bool.and_eq_true_iff.mp h2).2
        have hm : matchNDigits 10 s.data = some [] :=
          (matchNDigits_some_iff 10 s.data []).mpr ⟨s.data, by simp, h1, hall⟩
        rw [h] at hm
        exact absurd hm (by simp)
      · have hm : matchNDigits 10 s.data = some ['\n'] :=
          (matchNDigits_some_iff 10 s.data ['\n']).mpr ⟨ds, h1, h2, h3⟩
        rw [h] at hm
        exact absurd hm (by simp)
  | some rest =>
    rw [matchNDigits_some_iff] at h
    obtain ⟨ds, hcs, hlen, hall⟩ := h
    constructor
    · intro hd
      have hr : rest = [] ∨ rest = ['\n'] := by
        simpa [dollarAccepts] using hd
      rcases hr with hr | hr
      · subst hr
        left
        have hsd : s.data = ds := by simpa using hcs
        have hne : ds ≠ [] := by
          intro hh; rw [hh] at hlen; simp at hlen
        constructor
        · show s.data.length = 10
          rw [hsd]; exact hlen
        · unfold pyIsdigit
          rw [hsd]
          simp [hall, List.isEmpty_iff, hne]
      · subst hr
        right
        exact ⟨ds, hcs, hlen, hall⟩
    · rintro (⟨h1, h2⟩ | ⟨ds2, h1, h2, h3⟩)
      · have hl10 : s.data.length = 10 := h1
        have hr : rest = [] := by
          have hc := congrArg List.length hcs
          rw [List.length_append, hlen, hl10] at hc
          have : rest.length = 0 := by omega
          exact List.length_eq_zero.mp this
        rw [hr]
        simp [dollarAccepts]
      · have heq : ds ++ rest = ds2 ++ ['\n'] := by rw [← hcs, ← h1]
        have hsp := List.append_inj heq (by rw [hlen, h2])
        rw [hsp.2]
        simp [dollarAccepts]

/-- Claim C4 (code evaluated at the failing input): on an invalid phone
string, `Record.add_phone` does report the failure message, but it also
appends a `Phone` object whose `value` attribute was never set — the
record is not left unchanged.  On a valid 10-digit string it appends the
phone to the end of the list. -/
theorem add_phone_bug :
    Record.add_phone ⟨"Ann", [], none⟩ "abc" =
      (⟨"Ann", [⟨none⟩], none⟩, [Msg.phoneInvalid]) ∧
    Record.add_phone ⟨"Ann", [⟨some "0123456789"⟩], none⟩ "9876543210" =
      (⟨"Ann", [⟨some "0123456789"⟩, ⟨some "9876543210"⟩], none⟩, []) := by
  decide

/-- Claim C5: constructing a record from the empty name reports the
invalid-name error and yields a record whose name holds no value (no
usable contact), with no phones and no birthday; any non-empty name yields
a record carrying that name, an empty phone list and no birthday, with no
error reported. -/
theorem record_init_spec (s : String) :
    (s = "" → mkRecord s =
      ({ name := none, phones := [], birthday := none }, [Msg.nameEmpty])) ∧
    (s ≠ "" → mkRecord s =
      ({ name := some s, phones := [], birthday := none }, [])) := by
  constructor
  · intro h; simp [mkRecord, mkName, h]
  · intro h; simp [mkRecord, mkName, h]

/-- Witness for C5 at the empty name and at a concrete non-empty name. -/
theorem record_init_spec_witness :
    mkRecord "" =
      ({ name := none, phones := [], birthday := none }, [Msg.nameEmpty]) ∧
    mkRecord "Bob" =
      ({ name := some "Bob", phones := [], birthday := none }, []) :=
  ⟨(record_init_spec "").1 rfl, (record_init_spec "Bob").2 (by decide)⟩

/-- Claim C9: `delete_record` and `del_contact` are the same function, and
both delete the entry and report deletion when the name is present, and
leave the store unchanged reporting not-found otherwise. -/
theorem delete_unified (data : Book) (n : String) :
    AddressBook.delete_record data n = AddressBook.del_contact data n ∧
    (containsKey data n = true →
      AddressBook.delete_record data n =
        (eraseKey data n, [Msg.contactDeleted n])) ∧
    (containsKey data n = false →
      AddressBook.delete_record data n = (data, [Msg.contactNotFound])) := by
  refine ⟨rfl, ?_, ?_⟩
  · intro h; simp [AddressBook.delete_record, h]
  · intro h; simp [AddressBook.delete_record, h]

/-- Witness for C9 on a concrete one-entry store, in both the present and
the absent case. -/
theorem delete_unified_witness :
    AddressBook.delete_record chBook "Ann" = AddressBook.del_contact chBook "Ann" ∧
    AddressBook.delete_record chBook "Ann" =
      (eraseKey chBook "Ann", [Msg.contactDeleted "Ann"]) ∧
    AddressBook.delete_record chBook "Zoe" = (chBook, [Msg.contactNotFound]) :=
  ⟨(delete_unified chBook "Ann").1,
   (delete_unified chBook "Ann").2.1 (by decide),
   (delete_unified chBook "Zoe").2.2 (by decide)⟩

/-- Claim C10: the upcoming-birthdays query is read-only — threading the
store through the loop returns it unchanged, with the same report the pure
query computes. -/
theorem birthdays_readonly (data : Book) (t : PyNow) (days : Int) :
    pyBirthdaysSt data t days = (data, pyBirthdays data t days) := by
  unfold pyBirthdaysSt pyBirthdays
  rw [birthdaysLoopSt_eq]

/-- Claim C2, counterexample: with the current instant 2026-06-15 noon,
the contact whose birthday text parses to June 15 has this-year occurrence
2026-06-15, which did not fall before today and satisfies
`0 ≤ (occurrence - today).days ≤ 7` at the calendar level — yet the query
returns nothing: the code compares against the full `datetime.now()` and
rolls today's occurrence to next year. -/
theorem birthdays_window_cex :
    strptimeDMY "15.06.2000" = some (15, 6, 2000) ∧
    nowOrd exNow = toOrdinal 2026 6 15 ∧
    ¬ toOrdinal 2026 6 15 < nowOrd exNow ∧
    (0 ≤ toOrdinal 2026 6 15 - nowOrd exNow ∧
      toOrdinal 2026 6 15 - nowOrd exNow ≤ 7) ∧
    ("Ann", toOrdinal 2026 6 15) ∉ pyBirthdays cexBook exNow 7 ∧
    pyBirthdays cexBook exNow 7 = [] := by decide

/-- Claim C2, amended: the query compares occurrence datetimes (midnight)
against the full current datetime, not the current date.  Whenever the
query runs strictly after midnight: the this-year occurrence is rolled to
next year exactly when it is on or before today (so a birthday occurring
today is rolled too), and a `(name, occurrence)` pair is reported iff its
computed occurrence date lies between tomorrow and today + window_days + 1
inclusive. -/
theorem birthdays_window_char (data : Book) (t : PyNow) (days : Int)
    (n b : String) (o o1 : Int) (d m y : Nat)
    (h1 : 0 < t.us) (h2 : (t.us : Int) < usPerDay) :
    ((n, o) ∈ pyBirthdays data t days ↔
      ∃ e ∈ data, e.2.name = n ∧ ∃ bb, e.2.birthday = some bb ∧
        birthdayOcc t bb = some o ∧
        nowOrd t + 1 ≤ o ∧ o ≤ nowOrd t + 1 + days) ∧
    (strptimeDMY b = some (d, m, y) → replaceYear t.year m d = some o1 →
      birthdayOcc t b =
        if o1 ≤ nowOrd t then replaceYear (t.year + 1) m d else some o1) := by
  constructor
  · rw [mem_pyBirthdays_iff]
    constructor
    · rintro ⟨e, he, hp⟩
      rw [procRecord_eq_some_iff] at hp
      obtain ⟨hn, bb, hb, ho, hd1, hd2⟩ := hp
      rw [daysUntil_eq o t h2, if_neg (by omega : ¬ t.us = 0)] at hd1 hd2
      exact ⟨e, he, hn, bb, hb, ho, by omega, by omega⟩
    · rintro ⟨e, he, hn, bb, hb, ho, hg1, hg2⟩
      refine ⟨e, he, ?_⟩
      rw [procRecord_eq_some_iff]
      refine ⟨hn, bb, hb, ho, ?_, ?_⟩ <;>
        rw [daysUntil_eq o t h2, if_neg (by omega : ¬ t.us = 0)] <;> omega
  · intro hp hr
    have hcond : (o1 * usPerDay < nowAbs t) ↔ (o1 ≤ nowOrd t) := by
      unfold nowAbs usPerDay at *
      omega
    simp only [birthdayOcc, hp, hr]
    exact if_congr hcond rfl rfl

/-- Witness for the amended C2: a contact whose birthday occurs tomorrow
(June 16) is reported by the 7-day query run at noon on June 15. -/
theorem birthdays_window_char_witness :
    ("Bob", toOrdinal 2026 6 16) ∈ pyBirthdays wBook exNow 7 :=
  ((birthdays_window_char wBook exNow 7 "Bob" "x" (toOrdinal 2026 6 16) 0 0 0 0
      (by decide) (by decide)).1).mpr
    ⟨("Bob", bobRec), by decide, rfl, "16.06.1990", rfl, by decide,
      by decide, by decide⟩

/-- Claim C3, counterexample: at 2026-06-15 noon with window 0, the
contact whose occurrence is today (Ann, June 15) is not returned, while a
contact whose occurrence is tomorrow (Bob, June 16) is — the zero-window
query does not return exactly the contacts whose occurrence is today. -/
theorem birthdays_zero_cex :
    nowOrd exNow = toOrdinal 2026 6 15 ∧
    pyBirthdays cexBook2 exNow 0 = [("Bob", toOrdinal 2026 6 16)] ∧
    toOrdinal 2026 6 16 ≠ toOrdinal 2026 6 15 ∧
    ("Ann", toOrdinal 2026 6 15) ∉ pyBirthdays cexBook2 exNow 0 := by decide

/-- Claim C3, amended: when the query runs strictly after midnight,
`birthdays(0)` returns exactly the contacts whose computed occurrence date
is tomorrow (it returns exactly the today-occurrences only when run at
midnight precisely). -/
theorem birthdays_zero_char (data : Book) (t : PyNow) (n : String) (o : Int)
    (h1 : 0 < t.us) (h2 : (t.us : Int) < usPerDay) :
    (n, o) ∈ pyBirthdays data t 0 ↔
      (∃ e ∈ data, e.2.name = n ∧ ∃ bb, e.2.birthday = some bb ∧
        birthdayOcc t bb = some o) ∧ o = nowOrd t + 1 := by
  rw [mem_pyBirthdays_iff]
  constructor
  · rintro ⟨e, he, hp⟩
    rw [procRecord_eq_some_iff] at hp
    obtain ⟨hn, bb, hb, ho, hd1, hd2⟩ := hp
    rw [daysUntil_eq o t h2, if_neg (by omega : ¬ t.us = 0)] at hd1 hd2
    exact ⟨⟨e, he, hn, bb, hb, ho⟩, by omega⟩
  · rintro ⟨⟨e, he, hn, bb, hb, ho⟩, hoeq⟩
    refine ⟨e, he, ?_⟩
    rw [procRecord_eq_some_iff]
    refine ⟨hn, bb, hb, ho, ?_, ?_⟩ <;>
      rw [daysUntil_eq o t h2, if_neg (by omega : ¬ t.us = 0)] <;> omega

/-- Witness for the amended C3: the zero-window query at noon on June 15
reports the contact whose occurrence is June 16. -/
theorem birthdays_zero_char_witness :
    ("Bob", toOrdinal 2026 6 16) ∈ pyBirthdays wBook exNow 0 :=
  (birthdays_zero_char wBook exNow "Bob" (toOrdinal 2026 6 16)
      (by decide) (by decide)).mpr
    ⟨⟨("Bob", bobRec), by decide, rfl, "16.06.1990", rfl, by decide⟩,
      by decide⟩

/-- Claim C6: `change` rejects (store untouched, invalid-phone message)
when the new number is not 10 digits; reports not-found (store untouched)
when the name is absent; and on success replaces the contact's entire
phone list with the single new number. -/
theorem change_spec (data : Book) (n p : String) :
    ((p.length ≠ 10 ∨ pyIsdigit p = false) →
      AddressBook.change data n p = (data, [Msg.phoneInvalid])) ∧
    (p.length = 10 → pyIsdigit p = true → lookupKey data n = none →
      AddressBook.change data n p = (data, [Msg.contactNotFound])) ∧
    (∀ r, p.length = 10 → pyIsdigit p = true → lookupKey data n = some r →
      AddressBook.change data n p =
        (updateRecord data n { r with phones := [⟨some p⟩] },
          [Msg.phoneUpdated n])) := by
  refine ⟨?_, ?_, ?_⟩
  · intro h
    unfold AddressBook.change
    rw [if_pos h]
  · intro h1 h2 h3
    simp [AddressBook.change, h1, h2, h3]
  · intro r h1 h2 h3
    have hv : validate_phone p = true := validate_phone_of_digits p h1 h2
    simp [AddressBook.change, h1, h2, h3, Record.add_phone, mkPhone, hv]

/-- Witness for C6: replacing the phones of a contact holding two numbers
leaves exactly the single new number. -/
theorem change_spec_witness :
    AddressBook.change chBook "Ann" "3333333333" =
      (updateRecord chBook "Ann" ⟨"Ann", [⟨some "3333333333"⟩], none⟩,
        [Msg.phoneUpdated "Ann"]) :=
  (change_spec chBook "Ann" "3333333333").2.2
    ⟨"Ann", [⟨some "1111111111"⟩, ⟨some "2222222222"⟩], none⟩
    (by decide) (by decide) (by decide)

/-- Claim C7: for an existing contact and a birthday text in strict
`DD.MM.YYYY` shape that parses to a calendar date on or before today,
`add_birthday` followed by `show_birthday` reports exactly the original
text. -/
theorem birthday_roundtrip (data : Book) (n btext : String) (t : PyNow)
    (d m y : Nat) (r : Record)
    (hfmt : formatShape btext.data = true)
    (hparse : strptimeDMY btext = some (d, m, y))
    (hle : toOrdinal y m d ≤ nowOrd t)
    (hr : lookupKey data n = some r) :
    AddressBook.show_birthday (AddressBook.add_birthday data n btext t).1 n =
      [Msg.birthdayIs n btext] := by
  have hvf : Birthday.is_valid_format btext = true := by
    unfold Birthday.is_valid_format
    rw [hfmt]
    rfl
  have hvd : Birthday.is_valid_date btext t = true := by
    simp only [Birthday.is_valid_date, hparse, decide_eq_true_eq]
    unfold nowAbs usPerDay at *
    omega
  have hbook : (AddressBook.add_birthday data n btext t).1 =
      updateRecord data n { r with birthday := some btext } := by
    simp [AddressBook.add_birthday, hvf, hvd, hr]
  rw [hbook]
  have hlk := lookupKey_updateRecord data n r { r with birthday := some btext } hr
  simp [AddressBook.show_birthday, hlk]

/-- Witness for C7 on a concrete store, text and instant. -/
theorem birthday_roundtrip_witness :
    AddressBook.show_birthday
        (AddressBook.add_birthday rtBook "Bob" "01.01.2000" t0).1 "Bob" =
      [Msg.birthdayIs "Bob" "01.01.2000"] :=
  birthday_roundtrip rtBook "Bob" "01.01.2000" t0 1 1 2000 ⟨"Bob", [], none⟩
    (by decide) (by decide) (by decide) (by decide)

/-- Claim C8: the validators are total Bool-valued functions by
construction (the one exception source, `strptime`, is modelled as
`Option` and confined by the `try/except`): whenever parsing fails the
range validator returns false rather than propagating, and in particular
`31.02.2020` — an invalid calendar date — is rejected by the range check
while passing the pure format check. -/
theorem validators_total_safe (s : String) (t : PyNow)
    (h : strptimeDMY s = none) :
    Birthday.is_valid_date s t = false ∧
    Birthday.is_valid_date "31.02.2020" t = false ∧
    Birthday.is_valid_format "31.02.2020" = true ∧
    strptimeDMY "31.02.2020" = none := by
  refine ⟨?_, ?_, by decide, by decide⟩
  · simp [Birthday.is_valid_date, h]
  · have h2 : strptimeDMY "31.02.2020" = none := by decide
    simp [Birthday.is_valid_date, h2]

/-- Witness for C8 at a concrete unparsable input and instant. -/
theorem validators_total_safe_witness :
    strptimeDMY "not-a-date" = none ∧
    Birthday.is_valid_date "not-a-date" t0 = false :=
  ⟨by decide, (validators_total_safe "not-a-date" t0 (by decide)).1⟩
